import Mathlib

/-!
Shallow embedding of the PixFlow backend (`src/main.py`): admin one-time
registration, login, bearer-token guard, the password-reset state machine,
the developer-only fallback reset, and the subscriber registry.

Modelling conventions:
* The document store's `admin` collection is a `List Admin` in natural
  (insertion) order; `find_one({})` is `List.head?`, `find_one(filter)` is
  `List.find?`, `insert_one` appends, and `update_one(filter, ...)` rewrites
  the first matching record (`updateFirst`).  The store-assigned `_id` is an
  explicit `id : Nat` field; where the store or `secrets` would produce a
  fresh value (`_id`, `token_urlsafe`), that value is passed to the handler
  as an extra argument.
* Timestamps are absolute UTC instants modelled as `Nat` seconds; the
  `isinstance(expires, str)` best-effort-parse branch of the Python code is
  outside this model (expiries are always stored as datetimes by
  `forgot_password`), and `.replace(tzinfo=utc)` is the identity here.
* `passlib`'s bcrypt is an external library; it is modelled by the injective
  `bcrypt_hash` with `bcrypt_verify p h = (h == bcrypt_hash p)`, which keeps
  exactly the property the handlers rely on: verification succeeds iff the
  stored hash is a hash of the presented secret.
* pydantic validation (`EmailStr`, `min_length`) runs before each handler
  and yields HTTP 422 without touching the store; it is modelled as a
  `valid` check at the top of each handler, with `EmailStr` simplified to a
  basic well-formedness test (its internals are never load-bearing here).
* `db is None` (HTTP 500 `Unavailable`) is not modelled: every claim is
  about behaviour with the store reachable.
-/

deriving instance DecidableEq for Except

namespace PixFlow

/-- An `HTTPException` raised by a handler: status code plus detail message. -/
structure HTTPError where
  status : Nat
  detail : String
deriving Repr, DecidableEq

/-- Modelled from the spec: the `Admin` document schema (`schemas.py`, not under
`src/`), fields per spec section 3: identifier assigned by the store, profile
fields, one-way password hash, activity flag, optional current session token,
and the optional reset-token hash/expiry pair. -/
structure Admin where
  id : Nat
  full_name : String
  username : String
  email : String
  password_hash : String
  is_active : Bool
  current_token : Option String := none
  reset_token_hash : Option String := none
  reset_token_expires : Option Nat := none
deriving Repr, DecidableEq

/-- Modelled from the spec: the `Subscriber` document (`schemas.py` /
`database.py`, not under `src/`): optional name and an email used as the
idempotency key.  `create_document` is modelled as a plain insert (append). -/
structure Subscriber where
  name : Option String
  email : String
deriving Repr, DecidableEq

/-- Environment flags read through `os.getenv` by the handlers. -/
structure Env where
  reset_admin : Bool
  admin_created : Bool
  reset_mode : Bool
deriving Repr, DecidableEq

/-- Model of `passlib.hash.bcrypt.hash`: an injective one-way transform.  The
salt/cost structure of real bcrypt is irrelevant to the handlers, which only
ever compare via `bcrypt.verify`. -/
def bcrypt_hash (p : String) : String := "$2b$12$" ++ p

/-- Model of `passlib.hash.bcrypt.verify secret hash`. -/
def bcrypt_verify (p h : String) : Bool := h == bcrypt_hash p

theorem bcrypt_hash_ne_empty (p : String) : bcrypt_hash p ≠ "" := by
  intro h
  have h2 := congrArg String.data h
  simp [bcrypt_hash, String.data_append] at h2

/-- Simplified model of pydantic's `EmailStr` well-formedness check: exactly
one `@`, a nonempty local part, and a nonempty domain containing a dot. -/
def validEmail (e : String) : Bool :=
  let cs := e.data
  (cs.countP (fun c => c == '@') == 1) &&
    (match cs.dropWhile (fun c => !(c == '@')) with
     | _ :: domain =>
       !(cs.takeWhile (fun c => !(c == '@'))).isEmpty &&
         !domain.isEmpty && domain.contains '.'
     | [] => false)

/-- Python truthiness of an optional string field read via `.get`: absent and
the empty string are falsy. -/
def strTruthy : Option String → Bool
  | none => false
  | some s => !(s == "")

/-- Python truthiness of an optional datetime field: absent is falsy, any
stored datetime is truthy. -/
def timeTruthy : Option Nat → Bool
  | none => false
  | some _ => true

/-- `update_one(filter, ...)`: rewrite the first record matching the filter. -/
def updateFirst (p : Admin → Bool) (f : Admin → Admin) : List Admin → List Admin
  | [] => []
  | a :: rest => if p a then f a :: rest else a :: updateFirst p f rest

/-- Request body of `POST /admin/register`. -/
structure AdminRegisterIn where
  full_name : String
  username : String
  email : String
  password : String
deriving Repr, DecidableEq

/-- pydantic field constraints on `AdminRegisterIn`: `username` min_length 3,
`password` min_length 6, `email` an `EmailStr`. -/
def AdminRegisterIn.valid (p : AdminRegisterIn) : Bool :=
  decide (3 ≤ p.username.length) && validEmail p.email && decide (6 ≤ p.password.length)

/-- Request body of `POST /auth/login` (no field constraints). -/
structure AdminLoginIn where
  username : String
  password : String
deriving Repr, DecidableEq

/-- Response shape of register/login. -/
structure AuthResponse where
  success : Bool
  message : Option String := none
  token : Option String := none
deriving Repr, DecidableEq

/-- Request body of `POST /auth/forgot-password`. -/
structure ForgotPasswordIn where
  email : String
deriving Repr, DecidableEq

def ForgotPasswordIn.valid (p : ForgotPasswordIn) : Bool := validEmail p.email

/-- Response of `GET /auth/reset/verify`. -/
structure ResetVerifyOut where
  valid : Bool
  message : Option String := none
deriving Repr, DecidableEq

/-- Request body of `POST /auth/reset`. -/
structure ResetPasswordIn where
  token : String
  new_password : String
deriving Repr, DecidableEq

/-- pydantic constraint on `ResetPasswordIn`: `new_password` min_length 6. -/
def ResetPasswordIn.valid (p : ResetPasswordIn) : Bool :=
  decide (6 ≤ p.new_password.length)

/-- Request body of `POST /subscribers`. -/
structure SubscriberIn where
  name : Option String
  email : String
deriving Repr, DecidableEq

def SubscriberIn.valid (p : SubscriberIn) : Bool := validEmail p.email

def RESET_TOKEN_TTL_MINUTES : Nat := 15

/-- `_admin_exists`: the `RESET_ADMIN` override forces "no admin yet";
otherwise an admin exists when the collection is non-empty or the
process-lifetime `ADMIN_CREATED` marker is set. -/
def _admin_exists (env : Env) (admins : List Admin) : Bool :=
  if env.reset_admin then false
  else !admins.isEmpty || env.admin_created

/-- `POST /admin/register`.  `newId` is the store-assigned `_id` of the
inserted document.  Returns the updated environment (the `ADMIN_CREATED`
marker), the updated collection, and the response or error. -/
def admin_register (env : Env) (admins : List Admin) (payload : AdminRegisterIn)
    (newId : Nat) : Env × List Admin × Except HTTPError AuthResponse :=
  if !payload.valid then
    (env, admins, .error ⟨422, "Unprocessable Entity"⟩)
  else if _admin_exists env admins then
    (env, admins, .error ⟨403, "Admin already created"⟩)
  else if (admins.find? (fun a =>
      a.username == payload.username || a.email == payload.email)).isSome then
    (env, admins, .error ⟨400, "Username or email already in use"⟩)
  else
    let doc : Admin :=
      { id := newId
        full_name := payload.full_name
        username := payload.username
        email := payload.email
        password_hash := bcrypt_hash payload.password
        is_active := true }
    ({ env with admin_created := true }, admins ++ [doc],
      .ok { success := true, message := some "Admin created. Please log in." })

/-- `POST /auth/login`.  `newToken` is the fresh `secrets.token_urlsafe(32)`
value. -/
def admin_login (admins : List Admin) (payload : AdminLoginIn)
    (newToken : String) : List Admin × Except HTTPError AuthResponse :=
  match admins.find? (fun a => a.username == payload.username) with
  | none => (admins, .error ⟨401, "Invalid credentials"⟩)
  | some admin =>
    if !bcrypt_verify payload.password admin.password_hash then
      (admins, .error ⟨401, "Invalid credentials"⟩)
    else
      (updateFirst (fun a => a.id == admin.id)
        (fun a => { a with current_token := some newToken }) admins,
       .ok { success := true, token := some newToken })

/-- `_get_single_admin`: `find_one({})` on the admin collection. -/
def _get_single_admin (admins : List Admin) : Option Admin := admins.head?

/-- `POST /auth/forgot-password`.  `rawToken` is the fresh reset token; only
its hash is stored, with expiry `now + 15 minutes`.  (The dev-log link and
`EMAIL_DEBUG` hint are I/O outside this model.) -/
def forgot_password (admins : List Admin) (payload : ForgotPasswordIn)
    (rawToken : String) (now : Nat) : List Admin × Except HTTPError Bool :=
  if !payload.valid then (admins, .error ⟨422, "Unprocessable Entity"⟩)
  else
    match _get_single_admin admins with
    | none => (admins, .error ⟨404, "No account found with this email."⟩)
    | some admin =>
      if !(admin.email == payload.email) then
        (admins, .error ⟨404, "No account found with this email."⟩)
      else
        (updateFirst (fun a => a.id == admin.id)
          (fun a => { a with
            reset_token_hash := some (bcrypt_hash rawToken)
            reset_token_expires := some (now + RESET_TOKEN_TTL_MINUTES * 60) }) admins,
         .ok true)

/-- `GET /auth/reset/verify?token=...` at current time `now`. -/
def verify_reset_token (admins : List Admin) (token : String) (now : Nat) :
    ResetVerifyOut :=
  match _get_single_admin admins with
  | none => { valid := false, message := some "No admin account exists" }
  | some admin =>
    if !(strTruthy admin.reset_token_hash && timeTruthy admin.reset_token_expires) then
      { valid := false, message := some "Invalid or expired token" }
    else
      let token_hash := admin.reset_token_hash.getD ""
      let expires := admin.reset_token_expires.getD 0
      if now > expires then
        { valid := false, message := some "Token expired" }
      else if !bcrypt_verify token token_hash then
        { valid := false, message := some "Invalid token" }
      else
        { valid := true }

/-- `POST /auth/reset` at current time `now`.  Returns the updated collection
(on the expiry path the reset fields are cleared even though the call fails)
and the response message or error. -/
def reset_password (admins : List Admin) (payload : ResetPasswordIn)
    (now : Nat) : List Admin × Except HTTPError String :=
  if !payload.valid then (admins, .error ⟨422, "Unprocessable Entity"⟩)
  else
    match _get_single_admin admins with
    | none => (admins, .error ⟨404, "No admin account exists"⟩)
    | some admin =>
      if !(strTruthy admin.reset_token_hash && timeTruthy admin.reset_token_expires) then
        (admins, .error ⟨400, "Invalid or expired token"⟩)
      else
        let token_hash := admin.reset_token_hash.getD ""
        let expires := admin.reset_token_expires.getD 0
        if now > expires then
          (updateFirst (fun a => a.id == admin.id)
            (fun a => { a with reset_token_hash := none, reset_token_expires := none })
            admins,
           .error ⟨400, "Token expired"⟩)
        else if !bcrypt_verify payload.token token_hash then
          (admins, .error ⟨400, "Invalid token"⟩)
        else
          (updateFirst (fun a => a.id == admin.id)
            (fun a => { a with
              password_hash := bcrypt_hash payload.new_password
              reset_token_hash := none
              reset_token_expires := none
              current_token := none }) admins,
           .ok "Password reset successful. Please log in.")

/-- `POST /reset-password` (developer-only fallback).  `new_password` arrives
as a bare form field: the handler applies no length constraint. -/
def reset_password_apply (env : Env) (admins : List Admin)
    (new_password : String) : List Admin × Except HTTPError String :=
  if !env.reset_mode then (admins, .error ⟨404, "Not found"⟩)
  else
    match _get_single_admin admins with
    | none => (admins, .error ⟨404, "No admin account exists"⟩)
    | some admin =>
      (updateFirst (fun a => a.id == admin.id)
        (fun a => { a with
          password_hash := bcrypt_hash new_password
          reset_token_hash := none
          reset_token_expires := none
          current_token := none }) admins,
       .ok "Password updated.")

/-- Executable character-list test that `pat` starts the string, used to model
`str.startswith`. -/
def startsWithB : List Char → List Char → Bool
  | _, [] => true
  | [], _ :: _ => false
  | c :: cs, d :: ds => (c == d) && startsWithB cs ds

/-- Model of Python `str.lower()` (ASCII case folding via `Char.toLower`). -/
def strLower (s : String) : String := ⟨s.data.map Char.toLower⟩

/-- Model of `s.split(" ", 1)[1]`: everything after the first space.  (The
guard in `get_current_admin` ensures a space exists whenever this is read.) -/
def splitRest (s : String) : String :=
  ⟨(s.data.dropWhile (fun c => !(c == ' '))).drop 1⟩

/-- The `get_current_admin` dependency guarding admin-only routes: parses the
`Authorization` header and looks the token up against `current_token`. -/
def get_current_admin (admins : List Admin) (authorization : Option String) :
    Except HTTPError Admin :=
  match authorization with
  | none => .error ⟨401, "Not authenticated"⟩
  | some s =>
    if !(startsWithB (strLower s).data "bearer ".data) then
      .error ⟨401, "Not authenticated"⟩
    else
      let token := splitRest s
      match admins.find? (fun a => a.current_token == some token) with
      | none => .error ⟨401, "Invalid token"⟩
      | some admin => .ok admin

/-- `POST /subscribers`: idempotent upsert by email. -/
def add_subscriber (subs : List Subscriber) (payload : SubscriberIn) :
    List Subscriber × Except HTTPError Bool :=
  if !payload.valid then (subs, .error ⟨422, "Unprocessable Entity"⟩)
  else if (subs.find? (fun s => s.email == payload.email)).isSome then
    (subs, .ok true)
  else
    (subs ++ [{ name := payload.name, email := payload.email }], .ok true)

/-- The spec's record invariant: `reset_token_hash` and `reset_token_expires`
are both present or both absent. -/
def resetInv (a : Admin) : Bool :=
  a.reset_token_hash.isSome == a.reset_token_expires.isSome

/-! ## Helper lemmas -/

theorem updateFirst_singleton_self (f : Admin → Admin) (a : Admin) :
    updateFirst (fun x => x.id == a.id) f [a] = [f a] := by
  simp [updateFirst]

theorem mem_updateFirst {p : Admin → Bool} {f : Admin → Admin} :
    ∀ {l : List Admin} {x : Admin}, x ∈ updateFirst p f l →
      x ∈ l ∨ ∃ b, b ∈ l ∧ x = f b := by
  intro l
  induction l with
  | nil => intro x hx; simp [updateFirst] at hx
  | cons a rest ih =>
    intro x hx
    unfold updateFirst at hx
    by_cases hpa : p a
    · simp [hpa] at hx
      rcases hx with h | h
      · right; exact ⟨a, by simp, h⟩
      · left; simp [h]
    · simp [hpa] at hx
      rcases hx with h | h
      · left; simp [h]
      · rcases ih h with h2 | ⟨b, hb, hx2⟩
        · left; simp [h2]
        · right; exact ⟨b, by simp [hb], hx2⟩

/-! ## Claims -/

/-- C1: `verify_reset_token` answers `valid = true` exactly when the admin
record exists and holds a pending reset whose stored hash is the hash of the
presented token and whose expiry has not passed; in every other situation —
no admin, absent `reset_token_hash` or `reset_token_expires`, current time
past the expiry, or a token that does not hash-match — it answers
`valid = false`. -/
theorem C1_verify_reset_token_valid_iff (admins : List Admin) (token : String)
    (now : Nat) :
    (verify_reset_token admins token now).valid = true ↔
      ∃ a e, _get_single_admin admins = some a ∧
        a.reset_token_hash = some (bcrypt_hash token) ∧
        a.reset_token_expires = some e ∧ now ≤ e := by
  cases admins with
  | nil => simp [verify_reset_token, _get_single_admin]
  | cons a rest =>
    cases hh : a.reset_token_hash with
    | none => simp [verify_reset_token, _get_single_admin, strTruthy, hh]
    | some h =>
      cases he : a.reset_token_expires with
      | none => simp [verify_reset_token, _get_single_admin, strTruthy, timeTruthy, hh, he]
      | some e =>
        by_cases hemp : h = ""
        · subst hemp
          simp [verify_reset_token, _get_single_admin, strTruthy, timeTruthy, hh, he]
          intro hx
          exact absurd hx.symm (bcrypt_hash_ne_empty token)
        · by_cases hgt : now > e
          · simp [verify_reset_token, _get_single_admin, strTruthy, timeTruthy, hh, he, hemp, hgt]
          · by_cases hver : bcrypt_verify token h
            · simp [verify_reset_token, _get_single_admin, strTruthy, timeTruthy, hh, he, hemp, hgt, hver]
              exact ⟨by simpa [bcrypt_verify] using hver, by omega⟩
            · simp [verify_reset_token, _get_single_admin, strTruthy, timeTruthy, hh, he, hemp, hgt, hver]
              intro hx
              exact hver (by simp [bcrypt_verify, hx])

/-- C5: for every stored admin state, login with a nonexistent username and
login with an existing username but a wrong password produce the identical
`401 Invalid credentials` outcome (same status, same message, no state
change), so the two runs are indistinguishable to the caller. -/
theorem C5_login_enumeration_safe (admins : List Admin) (p1 p2 : AdminLoginIn)
    (t1 t2 : String) (a2 : Admin)
    (h1 : ∀ a ∈ admins, a.username ≠ p1.username)
    (h2 : admins.find? (fun a => a.username == p2.username) = some a2)
    (h2pw : bcrypt_verify p2.password a2.password_hash = false) :
    admin_login admins p1 t1 = (admins, .error ⟨401, "Invalid credentials"⟩) ∧
      admin_login admins p2 t2 = (admins, .error ⟨401, "Invalid credentials"⟩) ∧
      admin_login admins p1 t1 = admin_login admins p2 t2 := by
  have hn : admins.find? (fun a => a.username == p1.username) = none := by
    rw [List.find?_eq_none]
    intro a ha
    simpa using h1 a ha
  refine ⟨?_, ?_, ?_⟩ <;> simp [admin_login, hn, h2, h2pw]

/-- Concrete run of C5: unknown username versus known username with a wrong
password give equal outcomes. -/
theorem C5_witness :
    admin_login [⟨1, "A B", "admin1", "a@x.com", bcrypt_hash "secret1", true, none, none, none⟩]
        ⟨"ghost", "pw"⟩ "t1" =
      admin_login [⟨1, "A B", "admin1", "a@x.com", bcrypt_hash "secret1", true, none, none, none⟩]
        ⟨"admin1", "wrong"⟩ "t2" :=
  (C5_login_enumeration_safe
    [⟨1, "A B", "admin1", "a@x.com", bcrypt_hash "secret1", true, none, none, none⟩]
    ⟨"ghost", "pw"⟩ ⟨"admin1", "wrong"⟩ "t1" "t2"
    ⟨1, "A B", "admin1", "a@x.com", bcrypt_hash "secret1", true, none, none, none⟩
    (by decide) (by decide) (by decide)).2.2

/-- C6: when the single admin record holds a pending reset whose expiry is in
the past, `reset_password` clears `reset_token_hash` and
`reset_token_expires` (leaving `NoResetPending`), fails with the
`400 Token expired` error, and does not change `password_hash`. -/
theorem C6_reset_password_expired_clears (a : Admin) (payload : ResetPasswordIn)
    (now e : Nat) (h0 : String)
    (hval : payload.valid = true)
    (hh : a.reset_token_hash = some h0) (hne : h0 ≠ "")
    (he : a.reset_token_expires = some e)
    (hexp : e < now) :
    reset_password [a] payload now =
      ([{ a with reset_token_hash := none, reset_token_expires := none }],
       .error ⟨400, "Token expired"⟩) := by
  simp [reset_password, _get_single_admin, hval, strTruthy, timeTruthy, hh, he, hne,
    updateFirst, hexp]

/-- Concrete run of C6: a reset that expired at time 900, attempted at time
1000, clears the reset fields and fails with `Token expired`. -/
theorem C6_witness :
    reset_password
        [⟨1, "A B", "admin1", "a@x.com", bcrypt_hash "secret1", true, some "tok1",
          some (bcrypt_hash "raw1"), some 900⟩] ⟨"raw1", "newpass1"⟩ 1000 =
      ([⟨1, "A B", "admin1", "a@x.com", bcrypt_hash "secret1", true, some "tok1", none, none⟩],
       .error ⟨400, "Token expired"⟩) :=
  C6_reset_password_expired_clears
    ⟨1, "A B", "admin1", "a@x.com", bcrypt_hash "secret1", true, some "tok1",
      some (bcrypt_hash "raw1"), some 900⟩
    ⟨"raw1", "newpass1"⟩ 1000 900 (bcrypt_hash "raw1")
    (by decide) rfl (by decide) rfl (by decide)

/-- C10: the developer fallback reset applies no minimum length to the new
password — with `RESET_MODE` on and an admin present it succeeds for any
(in particular any non-empty) password, storing that password's hash and
clearing the session/reset fields — whereas the token-based `reset_password`
rejects any `new_password` shorter than 6 characters at validation (422),
without touching the store. -/
theorem C10_fallback_reset_no_min_length (env : Env) (a : Admin)
    (rest : List Admin) (npw : String) (rp : ResetPasswordIn) (now : Nat)
    (admins2 : List Admin)
    (hmode : env.reset_mode = true) (_hne : npw ≠ "")
    (hshort : rp.new_password.length < 6) :
    reset_password_apply env (a :: rest) npw =
      ({ a with password_hash := bcrypt_hash npw, reset_token_hash := none, reset_token_expires := none, current_token := none } :: rest,
       .ok "Password updated.") ∧
      reset_password admins2 rp now = (admins2, .error ⟨422, "Unprocessable Entity"⟩) := by
  constructor
  · simp [reset_password_apply, _get_single_admin, hmode, updateFirst]
  · have hv : rp.valid = false := by
      simp [ResetPasswordIn.valid]
      omega
    simp [reset_password, hv]

/-- Concrete run of C10: the fallback accepts the 2-character password "ab"
while the token-based reset rejects it with 422. -/
theorem C10_witness :
    reset_password_apply ⟨false, false, true⟩
        [⟨1, "A B", "admin1", "a@x.com", bcrypt_hash "secret1", true, some "tok1",
          some (bcrypt_hash "raw1"), some 900⟩] "ab" =
      ([⟨1, "A B", "admin1", "a@x.com", bcrypt_hash "ab", true, none, none, none⟩],
       .ok "Password updated.") ∧
      reset_password
          [⟨1, "A B", "admin1", "a@x.com", bcrypt_hash "secret1", true, some "tok1",
            some (bcrypt_hash "raw1"), some 900⟩] ⟨"raw1", "ab"⟩ 100 =
        ([⟨1, "A B", "admin1", "a@x.com", bcrypt_hash "secret1", true, some "tok1",
           some (bcrypt_hash "raw1"), some 900⟩],
         .error ⟨422, "Unprocessable Entity"⟩) :=
  C10_fallback_reset_no_min_length ⟨false, false, true⟩
    ⟨1, "A B", "admin1", "a@x.com", bcrypt_hash "secret1", true, some "tok1",
      some (bcrypt_hash "raw1"), some 900⟩
    [] "ab" ⟨"raw1", "ab"⟩ 100
    [⟨1, "A B", "admin1", "a@x.com", bcrypt_hash "secret1", true, some "tok1",
      some (bcrypt_hash "raw1"), some 900⟩]
    rfl (by decide) (by decide)

/-- C2: a successful token-based reset on the single admin record replaces
`password_hash` with the hash of the new password and clears
`reset_token_hash`, `reset_token_expires` and `current_token`; consequently
every Authorization header that the token-gated guard accepted before the
reset fails authentication (`401 Invalid token`) afterwards. -/
theorem C2_reset_password_success_invalidates_session (a : Admin)
    (payload : ResetPasswordIn) (now e : Nat)
    (hval : payload.valid = true)
    (hh : a.reset_token_hash = some (bcrypt_hash payload.token))
    (he : a.reset_token_expires = some e)
    (hle : now ≤ e) :
    reset_password [a] payload now =
      ([{ a with password_hash := bcrypt_hash payload.new_password, reset_token_hash := none, reset_token_expires := none, current_token := none }],
       .ok "Password reset successful. Please log in.") ∧
      ∀ auth adm, get_current_admin [a] auth = .ok adm →
        get_current_admin (reset_password [a] payload now).1 auth =
          .error ⟨401, "Invalid token"⟩ := by
  have hbne : (bcrypt_hash payload.token == "") = false := by
    simpa using bcrypt_hash_ne_empty payload.token
  have hgt : ¬ now > e := by omega
  have hmain : reset_password [a] payload now =
      ([{ a with password_hash := bcrypt_hash payload.new_password, reset_token_hash := none, reset_token_expires := none, current_token := none }],
       .ok "Password reset successful. Please log in.") := by
    simp [reset_password, _get_single_admin, hval, strTruthy, timeTruthy, hh, he, hbne,
      hgt, bcrypt_verify, updateFirst]
  refine ⟨hmain, ?_⟩
  intro auth adm hok
  rw [hmain]
  cases auth with
  | none => simp [get_current_admin] at hok
  | some s =>
    by_cases hb : startsWithB (strLower s).data "bearer ".data
    · simp [get_current_admin, hb]
    · simp [get_current_admin, hb] at hok

/-- Concrete run of C2: after a successful reset, the bearer token that
authenticated beforehand is rejected. -/
theorem C2_witness :
    reset_password
        [⟨1, "A B", "admin1", "a@x.com", bcrypt_hash "secret1", true, some "tok1",
          some (bcrypt_hash "raw1"), some 900⟩] ⟨"raw1", "newpass1"⟩ 100 =
      ([⟨1, "A B", "admin1", "a@x.com", bcrypt_hash "newpass1", true, none, none, none⟩],
       .ok "Password reset successful. Please log in.") ∧
      ∀ auth adm,
        get_current_admin
            [⟨1, "A B", "admin1", "a@x.com", bcrypt_hash "secret1", true, some "tok1",
              some (bcrypt_hash "raw1"), some 900⟩] auth = .ok adm →
          get_current_admin
              (reset_password
                [⟨1, "A B", "admin1", "a@x.com", bcrypt_hash "secret1", true, some "tok1",
                  some (bcrypt_hash "raw1"), some 900⟩] ⟨"raw1", "newpass1"⟩ 100).1 auth =
            .error ⟨401, "Invalid token"⟩ :=
  C2_reset_password_success_invalidates_session
    ⟨1, "A B", "admin1", "a@x.com", bcrypt_hash "secret1", true, some "tok1",
      some (bcrypt_hash "raw1"), some 900⟩
    ⟨"raw1", "newpass1"⟩ 100 900 (by decide) rfl rfl (by decide)

/-- C3 counterexample: with the process-lifetime admin-created marker set but
the store empty (and no override), a valid register call is rejected with 403
even though no admin record exists in the store, refuting the claim's
"if and only if". -/
theorem C3_counterexample :
    (admin_register ⟨false, true, false⟩ [] ⟨"A B", "admin1", "a@x.com", "secret1"⟩ 1).2.2 =
        .error ⟨403, "Admin already created"⟩ ∧
      ([] : List Admin).isEmpty = true ∧
      (⟨false, true, false⟩ : Env).reset_admin = false := by decide

/-- C3 amended: a valid register call is rejected with `403 Forbidden` iff
the override is inactive and an admin record exists in the store or the
process-lifetime admin-created marker is set; and after a successful
register, every subsequent valid register call against the resulting state
(override still inactive) is rejected with 403. -/
theorem C3_register_forbidden_iff (env : Env) (admins : List Admin)
    (payload : AdminRegisterIn) (newId : Nat)
    (hval : payload.valid = true) :
    ((admin_register env admins payload newId).2.2 =
        .error ⟨403, "Admin already created"⟩ ↔
      env.reset_admin = false ∧ (admins ≠ [] ∨ env.admin_created = true)) ∧
      (env.reset_admin = false →
        ∀ r, (admin_register env admins payload newId).2.2 = .ok r →
          ∀ (payload2 : AdminRegisterIn) (newId2 : Nat), payload2.valid = true →
            (admin_register (admin_register env admins payload newId).1
                (admin_register env admins payload newId).2.1 payload2 newId2).2.2 =
              .error ⟨403, "Admin already created"⟩) := by
  constructor
  · by_cases hra : env.reset_admin
    · by_cases hdup : (admins.find? (fun a =>
          a.username == payload.username || a.email == payload.email)).isSome
      · simp [admin_register, _admin_exists, hra, hval, hdup]
      · simp [admin_register, _admin_exists, hra, hval, hdup]
    · by_cases hex : (!admins.isEmpty || env.admin_created) = true
      · simp [admin_register, _admin_exists, hra, hval, hex]
        simpa [List.isEmpty_iff] using hex
      · have hex2 : ¬ _admin_exists env admins := by
          simp [_admin_exists, hra]
          simpa using hex
        by_cases hdup : (admins.find? (fun a =>
            a.username == payload.username || a.email == payload.email)).isSome
        · simp [admin_register, hval, hex2, hdup, hra]
          simpa [List.isEmpty_iff, not_or] using hex
        · simp [admin_register, hval, hex2, hdup, hra]
          simpa [List.isEmpty_iff, not_or] using hex
  · intro hra r hok payload2 newId2 hval2
    by_cases hex : _admin_exists env admins
    · simp [admin_register, hval, hex] at hok
    · by_cases hdup : (admins.find? (fun a =>
          a.username == payload.username || a.email == payload.email)).isSome
      · simp [admin_register, hval, hex, hdup] at hok
      · have hfirst : admin_register env admins payload newId =
            ({ env with admin_created := true },
             admins ++ [⟨newId, payload.full_name, payload.username, payload.email,
               bcrypt_hash payload.password, true, none, none, none⟩],
             .ok { success := true, message := some "Admin created. Please log in." }) := by
          simp [admin_register, hval, hex, hdup]
        rw [hfirst]
        simp [admin_register, _admin_exists, hval2, hra]

/-- Concrete instance of the amended C3 at a fresh environment and empty
store. -/
theorem C3_witness :
    ((admin_register ⟨false, false, false⟩ [] ⟨"A B", "admin1", "a@x.com", "secret1"⟩ 1).2.2 =
        .error ⟨403, "Admin already created"⟩ ↔
      (⟨false, false, false⟩ : Env).reset_admin = false ∧
        (([] : List Admin) ≠ [] ∨ (⟨false, false, false⟩ : Env).admin_created = true)) ∧
      ((⟨false, false, false⟩ : Env).reset_admin = false →
        ∀ r, (admin_register ⟨false, false, false⟩ [] ⟨"A B", "admin1", "a@x.com", "secret1"⟩ 1).2.2 = .ok r →
          ∀ (payload2 : AdminRegisterIn) (newId2 : Nat), payload2.valid = true →
            (admin_register (admin_register ⟨false, false, false⟩ [] ⟨"A B", "admin1", "a@x.com", "secret1"⟩ 1).1
                (admin_register ⟨false, false, false⟩ [] ⟨"A B", "admin1", "a@x.com", "secret1"⟩ 1).2.1 payload2 newId2).2.2 =
              .error ⟨403, "Admin already created"⟩) :=
  C3_register_forbidden_iff ⟨false, false, false⟩ [] ⟨"A B", "admin1", "a@x.com", "secret1"⟩ 1
    (by decide)

/-- C4 counterexample: with the RESET_ADMIN override active and a stored
admin record, a valid register call with that record's username fails the
duplicate-username/email check with 400 instead of succeeding, refuting the
claim that the override bypasses the uniqueness check. -/
theorem C4_counterexample :
    (admin_register ⟨true, false, false⟩
        [⟨1, "A B", "admin1", "a@x.com", bcrypt_hash "secret1", true, none, none, none⟩]
        ⟨"C D", "admin1", "b@y.com", "secret2"⟩ 2).2.2 =
      .error ⟨400, "Username or email already in use"⟩ := by decide

/-- C4 amended: the override bypasses only the admin-exists gate, not the
uniqueness check: with RESET_ADMIN active, a valid register call whose
username or email matches a stored record fails the duplicate check with
400, while one with a fresh username and email succeeds despite the stored
records. -/
theorem C4_override_keeps_uniqueness (env : Env) (admins : List Admin)
    (payload : AdminRegisterIn) (newId : Nat)
    (hov : env.reset_admin = true) (hval : payload.valid = true) :
    ((∃ a ∈ admins, a.username = payload.username ∨ a.email = payload.email) →
        (admin_register env admins payload newId).2.2 =
          .error ⟨400, "Username or email already in use"⟩) ∧
      ((∀ a ∈ admins, a.username ≠ payload.username ∧ a.email ≠ payload.email) →
        (admin_register env admins payload newId).2.2 =
          .ok { success := true, message := some "Admin created. Please log in." }) := by
  constructor
  · rintro ⟨a, ha, hmatch⟩
    have hdup : (admins.find? (fun x =>
        x.username == payload.username || x.email == payload.email)).isSome := by
      rw [List.find?_isSome]
      exact ⟨a, ha, by rcases hmatch with h | h <;> simp [h]⟩
    simp [admin_register, _admin_exists, hov, hval, hdup]
  · intro hfresh
    have hdup : admins.find? (fun x =>
        x.username == payload.username || x.email == payload.email) = none := by
      rw [List.find?_eq_none]
      intro x hx
      have hx2 := hfresh x hx
      simp [hx2.1, hx2.2]
    simp [admin_register, _admin_exists, hov, hval, hdup]

/-- Concrete instance of the amended C4: duplicate username rejected, fresh
credentials accepted, both under the active override. -/
theorem C4_witness :
    ((∃ a ∈ [(⟨1, "A B", "admin1", "a@x.com", bcrypt_hash "secret1", true, none, none, none⟩ : Admin)],
          a.username = "admin1" ∨ a.email = "b@y.com") →
        (admin_register ⟨true, false, false⟩
            [⟨1, "A B", "admin1", "a@x.com", bcrypt_hash "secret1", true, none, none, none⟩]
            ⟨"C D", "admin1", "b@y.com", "secret2"⟩ 2).2.2 =
          .error ⟨400, "Username or email already in use"⟩) ∧
      ((∀ a ∈ [(⟨1, "A B", "admin1", "a@x.com", bcrypt_hash "secret1", true, none, none, none⟩ : Admin)],
          a.username ≠ "admin1" ∧ a.email ≠ "b@y.com") →
        (admin_register ⟨true, false, false⟩
            [⟨1, "A B", "admin1", "a@x.com", bcrypt_hash "secret1", true, none, none, none⟩]
            ⟨"C D", "admin1", "b@y.com", "secret2"⟩ 2).2.2 =
          .ok { success := true, message := some "Admin created. Please log in." }) :=
  C4_override_keeps_uniqueness ⟨true, false, false⟩
    [⟨1, "A B", "admin1", "a@x.com", bcrypt_hash "secret1", true, none, none, none⟩]
    ⟨"C D", "admin1", "b@y.com", "secret2"⟩ 2 rfl (by decide)

/-- C7: whenever the call is not already blocked as a re-registration and the
submitted username or email is already used by a stored admin record, a valid
register call fails with the duplicate error (the spec's `Conflict`, HTTP 400
here) and nothing is inserted: environment and store are returned unchanged. -/
theorem C7_register_duplicate_conflict (env : Env) (admins : List Admin)
    (payload : AdminRegisterIn) (newId : Nat)
    (hval : payload.valid = true)
    (hnoblock : _admin_exists env admins = false)
    (hdup : ∃ a ∈ admins, a.username = payload.username ∨ a.email = payload.email) :
    admin_register env admins payload newId =
      (env, admins, .error ⟨400, "Username or email already in use"⟩) := by
  rcases hdup with ⟨a, ha, hmatch⟩
  have hfind : (admins.find? (fun x =>
      x.username == payload.username || x.email == payload.email)).isSome := by
    rw [List.find?_isSome]
    exact ⟨a, ha, by rcases hmatch with h | h <;> simp [h]⟩
  simp [admin_register, hval, hnoblock, hfind]

/-- Concrete run of C7: duplicate email under the active override is rejected
with the duplicate error and the state is unchanged. -/
theorem C7_witness :
    admin_register ⟨true, false, false⟩
        [⟨1, "A B", "admin1", "a@x.com", bcrypt_hash "secret1", true, none, none, none⟩]
        ⟨"C D", "admin2", "a@x.com", "secret2"⟩ 2 =
      (⟨true, false, false⟩,
       [⟨1, "A B", "admin1", "a@x.com", bcrypt_hash "secret1", true, none, none, none⟩],
       .error ⟨400, "Username or email already in use"⟩) :=
  C7_register_duplicate_conflict ⟨true, false, false⟩
    [⟨1, "A B", "admin1", "a@x.com", bcrypt_hash "secret1", true, none, none, none⟩]
    ⟨"C D", "admin2", "a@x.com", "secret2"⟩ 2 (by decide) (by decide)
    ⟨⟨1, "A B", "admin1", "a@x.com", bcrypt_hash "secret1", true, none, none, none⟩,
      by decide, Or.inr rfl⟩

theorem updateFirst_preserves_inv {p : Admin → Bool} {f : Admin → Admin}
    {l : List Admin} (hinv : ∀ a ∈ l, resetInv a = true)
    (hf : ∀ b ∈ l, resetInv (f b) = true) :
    ∀ a ∈ updateFirst p f l, resetInv a = true := by
  intro a ha
  rcases mem_updateFirst ha with h | ⟨b, hb, rfl⟩
  · exact hinv a h
  · exact hf b hb

/-- C8: every operation that mutates the admin collection preserves the
record invariant that `reset_token_hash` and `reset_token_expires` are both
present or both absent: registration inserts a record with neither, login
touches only `current_token`, `forgot_password` sets both together, and
`reset_password` (on expiry and on success) and the developer fallback clear
both together. -/
theorem C8_reset_invariant_preserved (env : Env) (admins : List Admin)
    (reg : AdminRegisterIn) (newId : Nat) (lg : AdminLoginIn) (tok : String)
    (fp : ForgotPasswordIn) (raw : String) (now : Nat)
    (rp : ResetPasswordIn) (npw : String)
    (hinv : ∀ a ∈ admins, resetInv a = true) :
    (∀ a ∈ (admin_register env admins reg newId).2.1, resetInv a = true) ∧
      (∀ a ∈ (admin_login admins lg tok).1, resetInv a = true) ∧
      (∀ a ∈ (forgot_password admins fp raw now).1, resetInv a = true) ∧
      (∀ a ∈ (reset_password admins rp now).1, resetInv a = true) ∧
      (∀ a ∈ (reset_password_apply env admins npw).1, resetInv a = true) := by
  refine ⟨?_, ?_, ?_, ?_, ?_⟩
  · unfold admin_register
    split
    · exact hinv
    · split
      · exact hinv
      · split
        · exact hinv
        · intro a ha
          rcases List.mem_append.mp ha with h | h
          · exact hinv a h
          · rcases List.mem_singleton.mp h with rfl
            simp [resetInv]
  · unfold admin_login
    split
    · exact hinv
    · split
      · exact hinv
      · exact updateFirst_preserves_inv hinv (fun b hb => by
          simpa [resetInv] using hinv b hb)
  · unfold forgot_password
    split
    · exact hinv
    · split
      · exact hinv
      · split
        · exact hinv
        · exact updateFirst_preserves_inv hinv (fun b hb => by simp [resetInv])
  · unfold reset_password
    split
    · exact hinv
    · split
      · exact hinv
      · split
        · exact hinv
        · dsimp only
          split
          · exact updateFirst_preserves_inv hinv (fun b hb => by simp [resetInv])
          · split
            · exact hinv
            · exact updateFirst_preserves_inv hinv (fun b hb => by simp [resetInv])
  · unfold reset_password_apply
    split
    · exact hinv
    · split
      · exact hinv
      · exact updateFirst_preserves_inv hinv (fun b hb => by simp [resetInv])

/-- Concrete run of C8: all five operations applied to a one-record store
satisfying the invariant yield stores satisfying it. -/
theorem C8_witness :
    (∀ a ∈ (admin_register ⟨false, false, true⟩
        [⟨1, "A B", "admin1", "a@x.com", bcrypt_hash "secret1", true, some "tok1",
          some (bcrypt_hash "raw1"), some 900⟩]
        ⟨"C D", "admin2", "b@y.com", "secret2"⟩ 2).2.1, resetInv a = true) ∧
      (∀ a ∈ (admin_login
        [⟨1, "A B", "admin1", "a@x.com", bcrypt_hash "secret1", true, some "tok1",
          some (bcrypt_hash "raw1"), some 900⟩] ⟨"admin1", "secret1"⟩ "t2").1,
        resetInv a = true) ∧
      (∀ a ∈ (forgot_password
        [⟨1, "A B", "admin1", "a@x.com", bcrypt_hash "secret1", true, some "tok1",
          some (bcrypt_hash "raw1"), some 900⟩] ⟨"a@x.com"⟩ "raw2" 100).1,
        resetInv a = true) ∧
      (∀ a ∈ (reset_password
        [⟨1, "A B", "admin1", "a@x.com", bcrypt_hash "secret1", true, some "tok1",
          some (bcrypt_hash "raw1"), some 900⟩] ⟨"raw1", "newpass1"⟩ 100).1,
        resetInv a = true) ∧
      (∀ a ∈ (reset_password_apply ⟨false, false, true⟩
        [⟨1, "A B", "admin1", "a@x.com", bcrypt_hash "secret1", true, some "tok1",
          some (bcrypt_hash "raw1"), some 900⟩] "ab").1,
        resetInv a = true) :=
  C8_reset_invariant_preserved ⟨false, false, true⟩
    [⟨1, "A B", "admin1", "a@x.com", bcrypt_hash "secret1", true, some "tok1",
      some (bcrypt_hash "raw1"), some 900⟩]
    ⟨"C D", "admin2", "b@y.com", "secret2"⟩ 2 ⟨"admin1", "secret1"⟩ "t2"
    ⟨"a@x.com"⟩ "raw2" 100 ⟨"raw1", "newpass1"⟩ "ab" (by decide)

/-- C9 counterexample: in a store already holding two subscriber records with
`alice@example.com` (a state the latent insert race can produce), two
Subscribe calls with that email leave two records with it, not exactly one,
refuting the claim's quantification over every store state. -/
theorem C9_counterexample :
    ¬ ((add_subscriber (add_subscriber
          [⟨none, "alice@example.com"⟩, ⟨none, "alice@example.com"⟩]
          ⟨none, "alice@example.com"⟩).1 ⟨none, "alice@example.com"⟩).1.countP
        (fun s => s.email == "alice@example.com") = 1) := by decide

/-- C9 amended: for every subscriber store state holding at most one record
with the given (valid) email — in particular every state reachable from a
duplicate-free store — calling Subscribe twice with that email leaves exactly
one stored record with that email, and both calls (in particular the second)
return success. -/
theorem C9_subscribe_idempotent (subs : List Subscriber) (p : SubscriberIn)
    (hval : p.valid = true)
    (hle : subs.countP (fun s => s.email == p.email) ≤ 1) :
    (add_subscriber (add_subscriber subs p).1 p).1.countP
        (fun s => s.email == p.email) = 1 ∧
      (add_subscriber subs p).2 = .ok true ∧
      (add_subscriber (add_subscriber subs p).1 p).2 = .ok true := by
  by_cases hex : (subs.find? (fun s => s.email == p.email)).isSome
  · have h1 : 0 < subs.countP (fun s => s.email == p.email) := by
      rw [List.find?_isSome] at hex
      rcases hex with ⟨x, hx, hpx⟩
      exact List.countP_pos_iff.mpr ⟨x, hx, hpx⟩
    have hcnt : subs.countP (fun s => s.email == p.email) = 1 := by omega
    simp [add_subscriber, hval, hex, hcnt]
  · have hfind : subs.find? (fun s => s.email == p.email) = none :=
      Option.not_isSome_iff_eq_none.mp hex
    have hex2 : ((subs ++ [({ name := p.name, email := p.email } : Subscriber)]).find?
        (fun s => s.email == p.email)).isSome := by
      rw [List.find?_isSome]
      refine ⟨{ name := p.name, email := p.email }, ?_, ?_⟩
      · simp
      · simp
    have hcnt0 : subs.countP (fun s => s.email == p.email) = 0 := by
      rw [List.countP_eq_zero]
      intro x hx
      exact List.find?_eq_none.mp hfind x hx
    simp [add_subscriber, hval, hfind, hex2, List.countP_append, hcnt0]

/-- Concrete run of the amended C9 from the empty store. -/
theorem C9_witness :
    (add_subscriber (add_subscriber [] ⟨none, "alice@example.com"⟩).1
          ⟨none, "alice@example.com"⟩).1.countP
        (fun s => s.email == "alice@example.com") = 1 ∧
      (add_subscriber [] ⟨none, "alice@example.com"⟩).2 = .ok true ∧
      (add_subscriber (add_subscriber [] ⟨none, "alice@example.com"⟩).1
          ⟨none, "alice@example.com"⟩).2 = .ok true :=
  C9_subscribe_idempotent [] ⟨none, "alice@example.com"⟩ (by decide) (by decide)

end PixFlow
